import Mathlib

/-!
Shallow embedding of the peer permission / presence core of
`Telegram/SourceFiles/data/data_peer_values.cpp`.

The reactive producers (`rpl::producer<bool>`) in the source are pure
combinations of snapshot values of the contributing flag cells; here each
evaluator is embedded as the pure function of those snapshots that the
`rpl::combine` lambda computes.  Bitmask-valued flag words
(`ChannelDataFlags`, `ChatDataFlags`, `UserDataFlags`, `ChatAdminRights`,
`ChatRestrictions`) are embedded as `Nat` with bitwise operations; the
particular bit positions are irrelevant to the logic, only distinctness
matters.  `TimeId` (a signed 32-bit integer in the source) and
`crl::time` are embedded as `Int`; all arithmetic in the embedded
functions stays far from 32/64-bit overflow on the guarded paths, so no
wrap-around modelling is needed.  Integer division only happens on
non-negative numerators (guarded by the surrounding branches), where
C++ truncating division and Lean's Euclidean `/` on `Int` coincide.
-/

namespace PeerValues

/-- `a & ~b` on bitmasks: the bits of `a` with the bits of `b` cleared.
For `Nat` bitmasks this is `a ^^^ (a &&& b)`. -/
def andNot (a b : Nat) : Nat := a ^^^ (a &&& b)

namespace ChannelDataFlag

def Left : Nat := 1

def Forbidden : Nat := 2

def Creator : Nat := 4

def HasLink : Nat := 8

def JoinToWrite : Nat := 16

def Forum : Nat := 32

def Broadcast : Nat := 64

def Megagroup : Nat := 128

def Username : Nat := 256

def Location : Nat := 512

end ChannelDataFlag

namespace ChatDataFlag

def Deactivated : Nat := 1

def Forbidden : Nat := 2

def Left : Nat := 4

def Creator : Nat := 8

end ChatDataFlag

namespace UserDataFlag

def Deleted : Nat := 1

def VoiceMessagesForbidden : Nat := 2

def CanPinMessages : Nat := 4

end UserDataFlag

namespace ChatAdminRight

def PostMessages : Nat := 1

def EditMessages : Nat := 2

def PinMessages : Nat := 4

def ManageCall : Nat := 8

def ManageTopics : Nat := 16

end ChatAdminRight

namespace ChatRestriction

def SendVoiceMessages : Nat := 1

def SendVideoMessages : Nat := 2

def PinMessages : Nat := 4

end ChatRestriction

/-- `UserData`: the flag word plus the predicates and presence field the
embedded functions read. -/
structure User where
  flags : Nat
  isRepliesChat : Bool
  isServiceUser : Bool
  isBot : Bool
  onlineTill : Int
deriving DecidableEq, Repr

/-- `ChatData` (a basic group): flag word, the caller's admin-rights word
and the group default restrictions word. -/
structure Chat where
  flags : Nat
  adminRights : Nat
  defaultRestrictions : Nat
deriving DecidableEq, Repr

/-- `ChannelData`: flag word, the caller's admin-rights word, the caller's
restrictions word and the default restrictions word. -/
structure Channel where
  flags : Nat
  adminRights : Nat
  restrictions : Nat
  defaultRestrictions : Nat
deriving DecidableEq, Repr

/-- `PeerData`: exactly one of user / basic group / channel. -/
inductive Peer where
  | user (u : User)
  | chat (c : Chat)
  | channel (ch : Channel)
deriving DecidableEq, Repr

/-- `Data::ForumTopic`: the owning channel, the closed flag, and whether
the caller can toggle the closed state. -/
structure ForumTopic where
  channel : Channel
  closed : Bool
  canToggleClosed : Bool
deriving DecidableEq, Repr

/-- `Data::Thread`: either a forum topic or a plain peer. -/
inductive Thread where
  | topic (t : ForumTopic)
  | peer (p : Peer)
deriving DecidableEq, Repr

/-- `CanSendAnyOfValue` user branch (data_peer_values.cpp:217-230):
the replies chat is always refused; if any requested bit other than
voice/video messages is present the result is not-Deleted; otherwise it is
neither Deleted nor VoiceMessagesForbidden. -/
def canSendAnyOfUser (u : User) (rights : Nat) : Bool :=
  if u.isRepliesChat then
    false
  else
    let other := andNot rights
      (ChatRestriction.SendVoiceMessages ||| ChatRestriction.SendVideoMessages)
    if other != 0 then
      !(u.flags &&& UserDataFlag.Deleted != 0)
    else
      let mask := UserDataFlag.Deleted ||| UserDataFlag.VoiceMessagesForbidden
      !(u.flags &&& mask != 0)

/-- `CanSendAnyOfValue` basic-group branch (data_peer_values.cpp:231-253):
not deactivated/forbidden/left, and creator or any admin right at all or
some requested bit survives the default restrictions. -/
def canSendAnyOfChat (c : Chat) (rights : Nat) : Bool :=
  let defaultSendRestrictions := c.defaultRestrictions &&& rights
  let amOutFlags := ChatDataFlag.Deactivated
    ||| ChatDataFlag.Forbidden ||| ChatDataFlag.Left
  !(c.flags &&& amOutFlags != 0)
    && ((c.flags &&& ChatDataFlag.Creator != 0)
      || (c.adminRights != 0)
      || (andNot rights defaultSendRestrictions != 0))

/-- `CanSendAnyOfValue` channel branch (data_peer_values.cpp:254-291). -/
def canSendAnyOfChannel (ch : Channel) (rights : Nat)
    (forbidInForums : Bool) : Bool :=
  let postMessagesRight := ch.adminRights &&& ChatAdminRight.PostMessages != 0
  let sendRestriction := ch.restrictions &&& rights
  let defaultSendRestriction := ch.defaultRestrictions &&& rights
  let notAmInFlags := ChannelDataFlag.Left ||| ChannelDataFlag.Forbidden
  let forumRestriction := forbidInForums
    && (ch.flags &&& ChannelDataFlag.Forum != 0)
  let allowed := !(ch.flags &&& notAmInFlags != 0)
    || ((ch.flags &&& ChannelDataFlag.HasLink != 0)
      && !(ch.flags &&& ChannelDataFlag.JoinToWrite != 0))
  let restricted := sendRestriction ||| defaultSendRestriction
  allowed
    && !forumRestriction
    && (postMessagesRight
      || (ch.flags &&& ChannelDataFlag.Creator != 0)
      || (!(ch.flags &&& ChannelDataFlag.Broadcast != 0)
        && (andNot rights restricted != 0)))

/-- `CanSendAnyOfValue(PeerData*)` (data_peer_values.cpp:213-293): dispatch
over the peer kind.  The trailing `Unexpected` in the source is unreachable:
every peer is one of the three kinds. -/
def CanSendAnyOfValue (peer : Peer) (rights : Nat)
    (forbidInForums : Bool) : Bool :=
  match peer with
  | .user u => canSendAnyOfUser u rights
  | .chat c => canSendAnyOfChat c rights
  | .channel ch => canSendAnyOfChannel ch rights forbidInForums

/-- `CanSendAnyOfValue` forum-topic branch (data_peer_values.cpp:176-207):
the combine lambda over the owning channel's flags, the caller and default
restriction words masked with the requested bits, the ManageTopics admin
right (whose value the lambda ignores) and the topic closed flag. -/
def canSendAnyOfTopic (t : ForumTopic) (rights : Nat) : Bool :=
  let sendRestriction := t.channel.restrictions &&& rights
  let defaultSendRestriction := t.channel.defaultRestrictions &&& rights
  let notAmInFlags := ChannelDataFlag.Left ||| ChannelDataFlag.Forbidden
  let allowed := !(t.channel.flags &&& notAmInFlags != 0)
    || ((t.channel.flags &&& ChannelDataFlag.HasLink != 0)
      && !(t.channel.flags &&& ChannelDataFlag.JoinToWrite != 0))
  allowed
    && ((t.channel.flags &&& ChannelDataFlag.Creator != 0)
      || (sendRestriction == 0 && defaultSendRestriction == 0))
    && (!t.closed || t.canToggleClosed)

/-- `CanSendAnyOfValue(Thread*)` (data_peer_values.cpp:172-210): a topic is
handled by the topic formula, any other thread falls through to the peer
overload. -/
def CanSendAnyOfValueThread (th : Thread) (rights : Nat)
    (forbidInForums : Bool) : Bool :=
  match th with
  | .topic t => canSendAnyOfTopic t rights
  | .peer p => CanSendAnyOfValue p rights forbidInForums

/-- The channel-level portion of the topic formula: everything of
`canSendAnyOfTopic` except the topic-closed conjunct. -/
def canSendTopicChannelLevel (ch : Channel) (rights : Nat) : Bool :=
  let sendRestriction := ch.restrictions &&& rights
  let defaultSendRestriction := ch.defaultRestrictions &&& rights
  let notAmInFlags := ChannelDataFlag.Left ||| ChannelDataFlag.Forbidden
  let allowed := !(ch.flags &&& notAmInFlags != 0)
    || ((ch.flags &&& ChannelDataFlag.HasLink != 0)
      && !(ch.flags &&& ChannelDataFlag.JoinToWrite != 0))
  allowed
    && ((ch.flags &&& ChannelDataFlag.Creator != 0)
      || (sendRestriction == 0 && defaultSendRestriction == 0))

/-- `CanPinMessagesValue` (data_peer_values.cpp:296-354).  A channel with
the Megagroup flag set takes the `asMegagroup` branch; `amCreator()` is the
Creator flag.  The trailing `Unexpected` is unreachable. -/
def CanPinMessagesValue (peer : Peer) : Bool :=
  match peer with
  | .user u => u.flags &&& UserDataFlag.CanPinMessages != 0
  | .chat c =>
    let amOutFlags := ChatDataFlag.Deactivated
      ||| ChatDataFlag.Forbidden ||| ChatDataFlag.Left
    !(c.flags &&& amOutFlags != 0)
      && ((c.flags &&& ChatDataFlag.Creator != 0)
        || (c.adminRights &&& ChatAdminRight.PinMessages != 0)
        || !(c.defaultRestrictions &&& ChatRestriction.PinMessages != 0))
  | .channel ch =>
    if ch.flags &&& ChannelDataFlag.Megagroup != 0 then
      if ch.flags &&& ChannelDataFlag.Creator != 0 then
        true
      else
        (ch.adminRights &&& ChatAdminRight.PinMessages != 0)
          || (!(ch.flags
                &&& (ChannelDataFlag.Username ||| ChannelDataFlag.Location)
                != 0)
            && !(ch.defaultRestrictions &&& ChatRestriction.PinMessages != 0)
            && !(ch.restrictions &&& ChatRestriction.PinMessages != 0))
    else
      if ch.flags &&& ChannelDataFlag.Creator != 0 then
        true
      else
        ch.adminRights &&& ChatAdminRight.EditMessages != 0

/-- `CanManageGroupCallValue` (data_peer_values.cpp:356-368).  Every path
in the source returns a producer; `some` wraps the produced boolean, and a
fatal `Unexpected`-style termination would be `none` (no path produces it:
the source ends with `return rpl::single(false)` for other peer kinds). -/
def CanManageGroupCallValue (peer : Peer) : Option Bool :=
  match peer with
  | .chat c =>
    some (if c.flags &&& ChatDataFlag.Creator != 0 then
        true
      else
        c.adminRights &&& ChatAdminRight.ManageCall != 0)
  | .channel ch =>
    some (if ch.flags &&& ChannelDataFlag.Creator != 0 then
        true
      else
        ch.adminRights &&& ChatAdminRight.ManageCall != 0)
  | _ => some false

def kMinOnlineChangeTimeout : Int := 1000

def kMaxOnlineChangeTimeout : Int := 86400 * 1000

def kSecondsInDay : Int := 86400

/-- `std::numeric_limits<TimeId>::max()` with `TimeId` = 32-bit int. -/
def maxTimeId : Int := 2147483647

/-- Modelled from the spec: `base::unixtime::parse` and the Qt calendar
(`nowFull.date().addDays(1).startOfDay()`) are external to this excerpt;
the seconds until the next local-midnight day boundary are modelled in UTC
as the distance from `now` to the next multiple of 86400 seconds. -/
def secsToTomorrow (now : Int) : Int := 86400 - now % 86400

/-- `OnlinePhraseChangeInSeconds` (data_peer_values.cpp:35-56). -/
def OnlinePhraseChangeInSeconds (online now : Int) : Int :=
  if online ≤ 0 then
    if -online > now then -online - now
    else maxTimeId
  else if online > now then
    online - now
  else
    let minutes := (now - online) / 60
    if minutes < 60 then
      (minutes + 1) * 60 - (now - online)
    else
      let hours := (now - online) / 3600
      if hours < 12 then
        (hours + 1) * 3600 - (now - online)
      else
        max (secsToTomorrow now) 0

/-- `std::clamp(v, lo, hi)`. -/
def stdClamp (v lo hi : Int) : Int :=
  if v < lo then lo else if hi < v then hi else v

/-- `OnlineChangeTimeout(TimeId, TimeId)` (data_peer_values.cpp:419-426):
seconds-to-change times 1000, clamped to [1 second, 24 hours] in
milliseconds. -/
def OnlineChangeTimeout (online now : Int) : Int :=
  stdClamp (OnlinePhraseChangeInSeconds online now * 1000)
    kMinOnlineChangeTimeout kMaxOnlineChangeTimeout

/-- The localized phrases `OnlineText` can produce.  Localization lookup is
external; each constructor stands for one `tr::lng_status_*` key, carrying
the numeric argument where the source passes one.  The date-based phrases
(today / yesterday / absolute date) depend on external Qt calendar and
locale formatting; they are collapsed into one constructor carrying the raw
timestamps. -/
inductive Phrase where
  | offline
  | recently
  | lastWeek
  | lastMonth
  | online
  | lastseenNow
  | lastseenMinutes (minutes : Int)
  | lastseenHours (hours : Int)
  | lastseenDated (online now : Int)
deriving DecidableEq, Repr

/-- `OnlineTextCommon` (data_peer_values.cpp:71-87): the fixed bucket
phrases and the online/recently split; `none` when the timestamp is a past
positive time that the caller must render itself. -/
def OnlineTextCommon (online now : Int) : Option Phrase :=
  if online ≤ 0 then
    if online = 0 ∨ online = -1 then some .offline
    else if online = -2 then some .recently
    else if online = -3 then some .lastWeek
    else if online = -4 then some .lastMonth
    else if -online > now then some .online
    else some .recently
  else if online > now then
    some .online
  else
    none

/-- `OnlineText(TimeId, TimeId)` (data_peer_values.cpp:435-461). -/
def OnlineText (online now : Int) : Phrase :=
  match OnlineTextCommon online now with
  | some common => common
  | none =>
    let minutes := (now - online) / 60
    if minutes = 0 then
      .lastseenNow
    else if minutes < 60 then
      .lastseenMinutes minutes
    else
      let hours := (now - online) / 3600
      if hours < 12 then
        .lastseenHours hours
      else
        .lastseenDated online now

/-- `OnlineTextActive(TimeId, TimeId)` (data_peer_values.cpp:491-503). -/
def OnlineTextActive (online now : Int) : Bool :=
  if online ≤ 0 then
    if online = 0 ∨ online = -1 ∨ online = -2 ∨ online = -3 ∨ online = -4 then
      false
    else
      -online > now
  else
    online > now

/-- `OnlineTextActive(UserData*, TimeId)` (data_peer_values.cpp:505-510). -/
def OnlineTextActiveUser (u : User) (now : Int) : Bool :=
  if u.isServiceUser || u.isBot then false
  else OnlineTextActive u.onlineTill now

/-- `IsUserOnline` (data_peer_values.cpp:512-517).  `clockNow` models the
external `base::unixtime::now()` used only when the caller passes 0. -/
def IsUserOnline (u : User) (now clockNow : Int) : Bool :=
  let n := if now = 0 then clockNow else now
  OnlineTextActiveUser u n

/-- `SortByOnlineValue` (data_peer_values.cpp:392-417). -/
def SortByOnlineValue (u : User) (now : Int) : Int :=
  if u.isServiceUser || u.isBot then
    -1
  else
    let online := u.onlineTill
    if online ≤ 0 then
      if online = 0 ∨ online = -1 then online
      else if online = -2 then now - 3 * kSecondsInDay
      else if online = -3 then now - 7 * kSecondsInDay
      else if online = -4 then now - 30 * kSecondsInDay
      else -online
    else
      online

/-- Claim C8: for every non-positive online value whose negation is not in
the future, `OnlinePhraseChangeInSeconds` returns the maximum representable
`TimeId` sentinel; for a non-positive online with `-online > now` it
returns exactly `-online - now`. -/
theorem c8_nonpositive_phrase_change (online now : Int) (h : online ≤ 0) :
    (-online ≤ now → OnlinePhraseChangeInSeconds online now = maxTimeId)
    ∧ (now < -online →
      OnlinePhraseChangeInSeconds online now = -online - now) := by
  constructor
  · intro hle
    unfold OnlinePhraseChangeInSeconds
    rw [if_pos h, if_neg (by omega)]
  · intro hlt
    unfold OnlinePhraseChangeInSeconds
    rw [if_pos h, if_pos (by omega)]

/-- Witness for C8 at the spec scenario `now = 1000`, `online = -500`, and
at the future-encoded case `online = -5000`. -/
theorem c8_nonpositive_phrase_change_witness :
    (-500 : Int) ≤ 0
    ∧ OnlinePhraseChangeInSeconds (-500) 1000 = maxTimeId
    ∧ OnlinePhraseChangeInSeconds (-5000) 1000 = -(-5000) - 1000 :=
  ⟨by decide,
    (c8_nonpositive_phrase_change (-500) 1000 (by decide)).1 (by decide),
    (c8_nonpositive_phrase_change (-5000) 1000 (by decide)).2 (by decide)⟩

/-- Claim C9: the bucket values 0 and -1 render the offline phrase, -2
recently, -3 last week, -4 last month, all independently of `now`; every
other non-positive online value renders the online phrase when
`-online > now` and the recently phrase otherwise. -/
theorem c9_bucket_phrases (online now : Int) :
    ((online = 0 ∨ online = -1) → OnlineText online now = .offline)
    ∧ (online = -2 → OnlineText online now = .recently)
    ∧ (online = -3 → OnlineText online now = .lastWeek)
    ∧ (online = -4 → OnlineText online now = .lastMonth)
    ∧ (online ≤ -5 →
      OnlineText online now
        = if now < -online then .online else .recently) := by
  refine ⟨?_, ?_, ?_, ?_, ?_⟩
  · rintro (h | h) <;> subst h <;> rfl
  · rintro h; subst h; rfl
  · rintro h; subst h; rfl
  · rintro h; subst h; rfl
  · intro h
    unfold OnlineText OnlineTextCommon
    rw [if_pos (show online ≤ 0 by omega),
      if_neg (show ¬(online = 0 ∨ online = -1) by omega),
      if_neg (show ¬online = -2 by omega),
      if_neg (show ¬online = -3 by omega),
      if_neg (show ¬online = -4 by omega)]
    by_cases hc : now < -online
    · rw [if_pos hc, if_pos hc]
    · rw [if_neg hc, if_neg hc]

/-- Witness for C9 at the buckets and at `online = -10` against
`now = 5` (online) and `now = 50` (recently). -/
theorem c9_bucket_phrases_witness :
    OnlineText 0 77 = .offline
    ∧ OnlineText (-2) 77 = .recently
    ∧ OnlineText (-3) 77 = .lastWeek
    ∧ OnlineText (-4) 77 = .lastMonth
    ∧ OnlineText (-10) 5 = (if (5 : Int) < -(-10) then .online else .recently)
    ∧ OnlineText (-10) 50
      = (if (50 : Int) < -(-10) then .online else .recently) :=
  ⟨(c9_bucket_phrases 0 77).1 (Or.inl rfl),
    (c9_bucket_phrases (-2) 77).2.1 rfl,
    (c9_bucket_phrases (-3) 77).2.2.1 rfl,
    (c9_bucket_phrases (-4) 77).2.2.2.1 rfl,
    (c9_bucket_phrases (-10) 5).2.2.2.2 (by decide),
    (c9_bucket_phrases (-10) 50).2.2.2.2 (by decide)⟩

/-- Claim C10: `SortByOnlineValue` returns -1 for every service user or
bot; otherwise buckets 0 and -1 pass through, -2 maps to `now - 3*86400`, -3 to
`now - 7*86400`, -4 to `now - 30*86400`, any other negative value to its
negation, and any positive value passes through. -/
theorem c10_sort_by_online (u : User) (now : Int) :
    ((u.isServiceUser = true ∨ u.isBot = true) →
      SortByOnlineValue u now = -1)
    ∧ (u.isServiceUser = false → u.isBot = false →
      (((u.onlineTill = 0 ∨ u.onlineTill = -1) →
          SortByOnlineValue u now = u.onlineTill)
        ∧ (u.onlineTill = -2 → SortByOnlineValue u now = now - 3 * 86400)
        ∧ (u.onlineTill = -3 → SortByOnlineValue u now = now - 7 * 86400)
        ∧ (u.onlineTill = -4 → SortByOnlineValue u now = now - 30 * 86400)
        ∧ (u.onlineTill ≤ -5 → SortByOnlineValue u now = -u.onlineTill)
        ∧ (0 < u.onlineTill → SortByOnlineValue u now = u.onlineTill))) := by
  constructor
  · intro h
    unfold SortByOnlineValue
    rcases h with h | h <;> simp [h]
  · intro hs hb
    refine ⟨?_, ?_, ?_, ?_, ?_, ?_⟩ <;>
      intro h <;>
      unfold SortByOnlineValue kSecondsInDay <;>
      simp only [hs, hb, Bool.or_self, Bool.false_eq_true, if_false]
    · rcases h with h | h <;>
        rw [if_pos (by omega), if_pos (by simp [h])]
    · rw [if_pos (by omega), if_neg (by omega), if_pos h]
    · rw [if_pos (by omega), if_neg (by omega), if_neg (by omega),
        if_pos h]
    · rw [if_pos (by omega), if_neg (by omega), if_neg (by omega),
        if_neg (by omega), if_pos h]
    · rw [if_pos (by omega), if_neg (by omega), if_neg (by omega),
        if_neg (by omega), if_neg (by omega)]
    · rw [if_neg (by omega)]

/-- Witness for C10: a bot, and a plain user at each bucket, at a negative
encoded value and at a positive value. -/
theorem c10_sort_by_online_witness :
    SortByOnlineValue ⟨0, false, false, true, 7⟩ 1000 = -1
    ∧ SortByOnlineValue ⟨0, false, false, false, -2⟩ 1000000
      = 1000000 - 3 * 86400
    ∧ SortByOnlineValue ⟨0, false, false, false, -7⟩ 1000000 = -(-7)
    ∧ SortByOnlineValue ⟨0, false, false, false, 42⟩ 1000000 = 42 :=
  ⟨(c10_sort_by_online ⟨0, false, false, true, 7⟩ 1000).1 (Or.inr rfl),
    ((c10_sort_by_online ⟨0, false, false, false, -2⟩ 1000000).2
      rfl rfl).2.1 rfl,
    ((c10_sort_by_online ⟨0, false, false, false, -7⟩ 1000000).2
      rfl rfl).2.2.2.2.1 (by decide),
    ((c10_sort_by_online ⟨0, false, false, false, 42⟩ 1000000).2
      rfl rfl).2.2.2.2.2 (by decide)⟩

/-- Counterexample to claim C2 as stated: on a user — an addressee that is
neither a basic group nor a channel — `CanManageGroupCallValue` does not
terminate fatally; it returns the value `false` (the source ends with
`return rpl::single(false)`). -/
theorem c2_counterexample :
    CanManageGroupCallValue (.user ⟨0, false, false, false, 0⟩) = some false
    ∧ CanManageGroupCallValue (.user ⟨0, false, false, false, 0⟩) ≠ none := by
  decide

/-- Claim C2 (amended): `CanManageGroupCallValue` returns a value on every
addressee kind — `false` for a user, and for a basic group or channel
`true` for a creator and otherwise the ManageCall admin right; no addressee
kind terminates evaluation fatally. -/
theorem c2_manage_call_total (u : User) (c : Chat) (ch : Channel) :
    CanManageGroupCallValue (.user u) = some false
    ∧ CanManageGroupCallValue (.chat c)
      = some ((c.flags &&& ChatDataFlag.Creator != 0)
        || (c.adminRights &&& ChatAdminRight.ManageCall != 0))
    ∧ CanManageGroupCallValue (.channel ch)
      = some ((ch.flags &&& ChannelDataFlag.Creator != 0)
        || (ch.adminRights &&& ChatAdminRight.ManageCall != 0)) := by
  refine ⟨rfl, ?_, ?_⟩
  · by_cases hx : c.flags &&& ChatDataFlag.Creator = 0 <;>
      simp [CanManageGroupCallValue, hx]
  · by_cases hx : ch.flags &&& ChannelDataFlag.Creator = 0 <;>
      simp [CanManageGroupCallValue, hx]

/-- Claim C3: on a channel with the Broadcast flag set, a caller without
the post-messages admin right and without the Creator flag can never send,
whatever the requested restriction bits, the caller restriction mask, the
default restriction mask or the forum modifier. -/
theorem c3_broadcast_requires_post_right (ch : Channel) (rights : Nat)
    (forbidInForums : Bool)
    (hb : ch.flags &&& ChannelDataFlag.Broadcast ≠ 0)
    (hp : ch.adminRights &&& ChatAdminRight.PostMessages = 0)
    (hc : ch.flags &&& ChannelDataFlag.Creator = 0) :
    CanSendAnyOfValue (.channel ch) rights forbidInForums = false := by
  simp [CanSendAnyOfValue, canSendAnyOfChannel, hb, hp, hc]

/-- Witness for C3: a broadcast channel with no admin rights, arbitrary
restriction words, queried for bits 7. -/
theorem c3_broadcast_requires_post_right_witness :
    (64 : Nat) &&& ChannelDataFlag.Broadcast ≠ 0
    ∧ (0 : Nat) &&& ChatAdminRight.PostMessages = 0
    ∧ (64 : Nat) &&& ChannelDataFlag.Creator = 0
    ∧ CanSendAnyOfValue (.channel ⟨64, 0, 5, 9⟩) 7 false = false :=
  ⟨by decide, by decide, by decide,
    c3_broadcast_requires_post_right ⟨64, 0, 5, 9⟩ 7 false
      (by decide) (by decide) (by decide)⟩

/-- Claim C4: for a person, the protected replies account is always
refused; when the requested mask has any bit outside voice/video messages
the result is exactly not-Deleted; when the requested mask lies inside the
voice/video subset the result is exactly neither-Deleted-nor-
VoiceMessagesForbidden. -/
theorem c4_person_send (u : User) (rights : Nat) (forbidInForums : Bool) :
    (u.isRepliesChat = true →
      CanSendAnyOfValue (.user u) rights forbidInForums = false)
    ∧ (u.isRepliesChat = false →
      (andNot rights (ChatRestriction.SendVoiceMessages
            ||| ChatRestriction.SendVideoMessages) ≠ 0 →
        CanSendAnyOfValue (.user u) rights forbidInForums
          = !(u.flags &&& UserDataFlag.Deleted != 0))
      ∧ (andNot rights (ChatRestriction.SendVoiceMessages
            ||| ChatRestriction.SendVideoMessages) = 0 →
        CanSendAnyOfValue (.user u) rights forbidInForums
          = !(u.flags &&& (UserDataFlag.Deleted
              ||| UserDataFlag.VoiceMessagesForbidden) != 0))) := by
  refine ⟨?_, ?_⟩
  · intro h
    simp [CanSendAnyOfValue, canSendAnyOfUser, h]
  · intro h
    constructor
    · intro hother
      simp [CanSendAnyOfValue, canSendAnyOfUser, h, hother]
    · intro hother
      simp [CanSendAnyOfValue, canSendAnyOfUser, h, hother]

/-- Witness for C4 at the spec scenarios: a deleted person queried with a
text-only bit, and a clean person queried with the voice bit only. -/
theorem c4_person_send_witness :
    CanSendAnyOfValue (.user ⟨1, false, false, false, 0⟩) 4 false = false
    ∧ CanSendAnyOfValue (.user ⟨0, false, false, false, 0⟩) 1 false = true :=
  ⟨(((c4_person_send ⟨1, false, false, false, 0⟩ 4 false).2 rfl).1
      (by decide)).trans (by decide),
    (((c4_person_send ⟨0, false, false, false, 0⟩ 1 false).2 rfl).2
      (by decide)).trans (by decide)⟩

/-- Claim C5: on a megagroup channel with the Username or Location flag
set, a non-creator can pin exactly when the pin-messages admin right is
held — absence of default and explicit pin restrictions does not help —
and a creator can always pin. -/
theorem c5_megagroup_username_pin (ch : Channel)
    (hm : ch.flags &&& ChannelDataFlag.Megagroup ≠ 0)
    (hu : ch.flags
      &&& (ChannelDataFlag.Username ||| ChannelDataFlag.Location) ≠ 0) :
    (ch.flags &&& ChannelDataFlag.Creator = 0 →
      CanPinMessagesValue (.channel ch)
        = (ch.adminRights &&& ChatAdminRight.PinMessages != 0))
    ∧ (ch.flags &&& ChannelDataFlag.Creator ≠ 0 →
      CanPinMessagesValue (.channel ch) = true) := by
  constructor
  · intro hc
    simp [CanPinMessagesValue, hm, hu, hc]
  · intro hc
    simp [CanPinMessagesValue, hm, hc]

/-- Witness for C5: a megagroup with Username set and no pin restrictions
anywhere, for a non-creator without (can't pin) and with creator status. -/
theorem c5_megagroup_username_pin_witness :
    (384 : Nat) &&& ChannelDataFlag.Megagroup ≠ 0
    ∧ (384 : Nat)
      &&& (ChannelDataFlag.Username ||| ChannelDataFlag.Location) ≠ 0
    ∧ CanPinMessagesValue (.channel ⟨384, 0, 0, 0⟩) = false
    ∧ CanPinMessagesValue (.channel ⟨388, 0, 0, 0⟩) = true :=
  ⟨by decide, by decide,
    ((c5_megagroup_username_pin ⟨384, 0, 0, 0⟩ (by decide) (by decide)).1
      (by decide)).trans (by decide),
    (c5_megagroup_username_pin ⟨388, 0, 0, 0⟩ (by decide) (by decide)).2
      (by decide)⟩

/-- Counterexample to claim C1 as stated: two open topics whose owning
channels get the same `CanSendAnyOfValue` channel allowance (true) while
the caller holds no admin right at all (so no ManageTopics), yet the topic
evaluations differ — the second channel carries a default restriction on
one of two requested bits, which the channel evaluator tolerates (one
requested bit survives) but the topic evaluator refuses (it demands that no
requested bit be restricted).  The topic result is therefore not determined
by the channel-level allowance. -/
theorem c1_counterexample :
    CanSendAnyOfValue (.channel ⟨0, 0, 0, 0⟩) 3 false = true
    ∧ CanSendAnyOfValue (.channel ⟨0, 0, 0, 2⟩) 3 false = true
    ∧ (0 : Nat) &&& ChatAdminRight.ManageTopics = 0
    ∧ (⟨⟨0, 0, 0, 0⟩, false, false⟩ : ForumTopic).closed = false
    ∧ (⟨⟨0, 0, 0, 2⟩, false, false⟩ : ForumTopic).closed = false
    ∧ CanSendAnyOfValueThread
        (.topic ⟨⟨0, 0, 0, 0⟩, false, false⟩) 3 false = true
    ∧ CanSendAnyOfValueThread
        (.topic ⟨⟨0, 0, 0, 2⟩, false, false⟩) 3 false = false := by
  decide

/-- Claim C1 (amended): the topic evaluator does not reuse the channel
`CanSendAnyOfValue`; it computes its own channel-level allowance — base
access from the owning channel's flags, then Creator or no requested
restriction bit present in either the caller or the default mask — and
additionally requires the topic open or toggleable.  For an open topic the
result equals that channel-level allowance, and the result never depends on
the channel's admin-rights word (in particular not on ManageTopics, whose
value the combine lambda ignores). -/
theorem c1_topic_channel_level (t : ForumTopic) (rights : Nat)
    (forbidInForums : Bool) (a : Nat) (hopen : t.closed = false) :
    CanSendAnyOfValueThread (.topic t) rights forbidInForums
      = canSendTopicChannelLevel t.channel rights
    ∧ CanSendAnyOfValueThread
        (.topic ⟨{ t.channel with adminRights := a },
          t.closed, t.canToggleClosed⟩) rights forbidInForums
      = CanSendAnyOfValueThread (.topic t) rights forbidInForums := by
  constructor
  · simp [CanSendAnyOfValueThread, canSendAnyOfTopic,
      canSendTopicChannelLevel, hopen]
  · rfl

/-- Witness for C1 (amended) at an open topic over a channel with a
default restriction on one of the two requested bits. -/
theorem c1_topic_channel_level_witness :
    (⟨⟨0, 0, 0, 2⟩, false, true⟩ : ForumTopic).closed = false
    ∧ CanSendAnyOfValueThread (.topic ⟨⟨0, 0, 0, 2⟩, false, true⟩) 3 false
      = canSendTopicChannelLevel ⟨0, 0, 0, 2⟩ 3 :=
  ⟨rfl, (c1_topic_channel_level ⟨⟨0, 0, 0, 2⟩, false, true⟩ 3 false 5
    rfl).1⟩

/-- The assertion at data_peer_values.cpp:421 holds: every branch of
`OnlinePhraseChangeInSeconds` yields a non-negative value. -/
theorem onlinePhraseChange_nonneg (online now : Int) :
    0 ≤ OnlinePhraseChangeInSeconds online now := by
  unfold OnlinePhraseChangeInSeconds maxTimeId secsToTomorrow
  dsimp only
  split
  · split <;> omega
  · split
    · omega
    · split
      · omega
      · split
        · omega
        · exact le_max_right _ 0

/-- `stdClamp` with the online-timeout bounds always lands inside them. -/
theorem onlineChangeTimeout_bounds (online now : Int) :
    kMinOnlineChangeTimeout ≤ OnlineChangeTimeout online now
    ∧ OnlineChangeTimeout online now ≤ kMaxOnlineChangeTimeout := by
  unfold OnlineChangeTimeout stdClamp kMinOnlineChangeTimeout
    kMaxOnlineChangeTimeout
  constructor <;> split <;> try split
  all_goals omega

/-- Claim C6: for a non-special user with a future online-until timestamp,
the liveness checks are true and the pre-clamp next-change delay is exactly
`onlineTill - now`; and for all inputs whatsoever the pre-clamp delay is
non-negative and the clamped timeout lies in [1 second, 24 hours] in
milliseconds. -/
theorem c6_future_online_and_clamp_bounds :
    (∀ (u : User) (now clockNow : Int),
      u.isServiceUser = false → u.isBot = false →
      0 < now → now < u.onlineTill →
      IsUserOnline u now clockNow = true
      ∧ OnlineTextActive u.onlineTill now = true
      ∧ OnlinePhraseChangeInSeconds u.onlineTill now = u.onlineTill - now)
    ∧ (∀ online now : Int,
      0 ≤ OnlinePhraseChangeInSeconds online now
      ∧ kMinOnlineChangeTimeout ≤ OnlineChangeTimeout online now
      ∧ OnlineChangeTimeout online now ≤ kMaxOnlineChangeTimeout) := by
  constructor
  · intro u now clockNow hs hb hnow hfut
    have hactive : OnlineTextActive u.onlineTill now = true := by
      unfold OnlineTextActive
      rw [if_neg (by omega)]
      simpa using hfut
    refine ⟨?_, hactive, ?_⟩
    · unfold IsUserOnline OnlineTextActiveUser
      dsimp only
      rw [if_neg (by omega : ¬now = 0), if_neg (by simp [hs, hb])]
      exact hactive
    · unfold OnlinePhraseChangeInSeconds
      rw [if_neg (by omega), if_pos (by omega)]
  · intro online now
    exact ⟨onlinePhraseChange_nonneg online now,
      (onlineChangeTimeout_bounds online now).1,
      (onlineChangeTimeout_bounds online now).2⟩

/-- Witness for C6: a plain user online until 10 queried at now = 3, and
the bound part at the already-expired point now = 1000, online = -500. -/
theorem c6_future_online_and_clamp_bounds_witness :
    IsUserOnline ⟨0, false, false, false, 10⟩ 3 0 = true
    ∧ OnlineTextActive 10 3 = true
    ∧ OnlinePhraseChangeInSeconds 10 3 = 10 - 3
    ∧ 0 ≤ OnlinePhraseChangeInSeconds (-500) 1000
    ∧ kMinOnlineChangeTimeout ≤ OnlineChangeTimeout (-500) 1000
    ∧ OnlineChangeTimeout (-500) 1000 ≤ kMaxOnlineChangeTimeout :=
  ⟨(c6_future_online_and_clamp_bounds.1 ⟨0, false, false, false, 10⟩ 3 0
      rfl rfl (by decide) (by decide)).1,
    (c6_future_online_and_clamp_bounds.1 ⟨0, false, false, false, 10⟩ 3 0
      rfl rfl (by decide) (by decide)).2.1,
    (c6_future_online_and_clamp_bounds.1 ⟨0, false, false, false, 10⟩ 3 0
      rfl rfl (by decide) (by decide)).2.2,
    (c6_future_online_and_clamp_bounds.2 (-500) 1000).1,
    (c6_future_online_and_clamp_bounds.2 (-500) 1000).2.1,
    (c6_future_online_and_clamp_bounds.2 (-500) 1000).2.2⟩

/-- Claim C7: for an elapsed time of 1 to 59 whole minutes, `OnlineText`
renders the minutes-ago phrase with count `elapsed / 60`, and the
next-change delay is `(count + 1) * 60 - elapsed`, the seconds until the
rendered count next changes. -/
theorem c7_minutes_roundtrip (online now : Int) (h1 : 0 < online)
    (h2 : 60 ≤ now - online) (h3 : now - online < 3600) :
    OnlineText online now = .lastseenMinutes ((now - online) / 60)
    ∧ OnlinePhraseChangeInSeconds online now
      = ((now - online) / 60 + 1) * 60 - (now - online) := by
  have hcommon : OnlineTextCommon online now = none := by
    unfold OnlineTextCommon
    rw [if_neg (by omega), if_neg (by omega)]
  have hm0 : ¬(now - online) / 60 = 0 := by omega
  have hm60 : (now - online) / 60 < 60 := by omega
  constructor
  · unfold OnlineText
    rw [hcommon]
    dsimp only
    rw [if_neg hm0, if_pos hm60]
  · unfold OnlinePhraseChangeInSeconds
    rw [if_neg (by omega), if_neg (by omega)]
    dsimp only
    rw [if_pos hm60]

/-- Witness for C7 at online = 100, now = 200: 100 elapsed seconds render
one minute ago, and the phrase changes in `2 * 60 - 100 = 20` seconds. -/
theorem c7_minutes_roundtrip_witness :
    OnlineText 100 200 = .lastseenMinutes ((200 - 100) / 60)
    ∧ OnlinePhraseChangeInSeconds 100 200
      = ((200 - 100) / 60 + 1) * 60 - (200 - 100) :=
  c7_minutes_roundtrip 100 200 (by decide) (by decide) (by decide)

end PeerValues
